import Mathlib

/-!
Verification of the connection docking/cropping engine of diagram-js:
`src/lib/layout/ConnectionDocking.js` (identity docking) and
`src/lib/layout/CroppingConnectionDocking.js` (cropping docking engine).

The engine is embedded shallowly. Shapes, shape paths and connection paths
are opaque to the engine; the graphics factory (an injected collaborator)
and the crossing enumerator of the external path-intersection library are
modelled as function-valued parameters carried by the engine value. The
path intersection routine `getElementLineIntersection` lives in
`src/lib/layout/LayoutUtil.js`, which is repository code not present under
`src/`; it is modelled from the spec (section 4.4).
-/

/-- A planar point, `djs.Point`: coordinates only. -/
structure Point where
  x : Int
  y : Int
deriving DecidableEq, Repr

/-- A waypoint: a point that may carry an `original` point, the logical
pre-crop coordinate threaded through repeated croppings. -/
structure Waypoint where
  x : Int
  y : Int
  original : Option Point := none
deriving DecidableEq, Repr

/-- Coordinate projection of a waypoint. -/
def pointOf (w : Waypoint) : Point :=
  { x := w.x, y := w.y }

/-- Lift a bare intersection point to a waypoint with no `original` field,
as produced by the intersection primitive. -/
def liftPoint (p : Point) : Waypoint :=
  { x := p.x, y := p.y, original := none }

/-- Default waypoint used for out-of-range list access (never reached in
the verified statements, which bound the indices). -/
def wpd : Waypoint := { x := 0, y := 0, original := none }

/-- An endpoint shape; the engine treats it opaquely and only hands it to
the graphics factory. -/
structure Shape where
  id : Nat
deriving DecidableEq, Repr

/-- Opaque closed-boundary representation of a shape's outline, produced
by the graphics factory. `segs = []` models an empty path. -/
structure ShapePath where
  segs : List Nat
deriving DecidableEq, Repr

/-- Opaque open-path representation of a waypoint sequence, produced by
the graphics factory. -/
structure ConnectionPath where
  dat : List Int
deriving DecidableEq, Repr

/-- A boundary crossing: an intersection point together with its position
along the connection path, measured from the path's start. -/
structure Crossing where
  pos : Nat
  point : Point
deriving DecidableEq, Repr

/-- `DockingPointDescriptor`: `point` is the raw waypoint at the docking
index, `actual` the geometrically corrected point, `idx` the docking
index into the original waypoint sequence. -/
structure DockingPointDescriptor where
  point : Waypoint
  actual : Waypoint
  idx : Nat
deriving DecidableEq, Repr

/-- A connection object: a waypoint sequence plus endpoint references. -/
structure Connection where
  waypoints : List Waypoint
  source : Option Shape := none
  target : Option Shape := none
deriving DecidableEq, Repr

/-- The first argument of `getCroppedWaypoints`: either a connection
object or a bare waypoint sequence. -/
inductive ConnectionOrWaypoints where
  | conn (c : Connection)
  | wps (ws : List Waypoint)
deriving DecidableEq, Repr

/-- `connectionOrWaypoints.waypoints || connectionOrWaypoints`: a
connection contributes its waypoint list, a bare list is used directly. -/
def resolveWaypoints : ConnectionOrWaypoints → List Waypoint
  | .conn c => c.waypoints
  | .wps ws => ws

/-- `connectionOrWaypoints.source`: absent on a bare waypoint list. -/
def ConnectionOrWaypoints.source : ConnectionOrWaypoints → Option Shape
  | .conn c => c.source
  | .wps _ => none

/-- `connectionOrWaypoints.target`: absent on a bare waypoint list. -/
def ConnectionOrWaypoints.target : ConnectionOrWaypoints → Option Shape
  | .conn c => c.target
  | .wps _ => none

/-- `source = source || connectionOrWaypoints.source`. -/
def resolvedSource (cw : ConnectionOrWaypoints) (source : Option Shape) : Option Shape :=
  source.orElse fun _ => cw.source

/-- `target = target || connectionOrWaypoints.target`. -/
def resolvedTarget (cw : ConnectionOrWaypoints) (target : Option Shape) : Option Shape :=
  target.orElse fun _ => cw.target

/-- `Array.prototype.slice(s, e)` for nonnegative indices. -/
def jsSlice (l : List α) (s e : Nat) : List α :=
  (l.drop s).take (e - s)

/-- Modelled from the spec: the crossing selection of the Path Intersection
Primitive (spec section 4.4). Among the enumerated crossings, pick the one
nearest the start of the connection path when `takeFirst`, nearest its end
otherwise. -/
def pickCrossing (takeFirst : Bool) : List Crossing → Option Crossing
  | [] => none
  | c :: cs =>
    match pickCrossing takeFirst cs with
    | none => some c
    | some b =>
      if takeFirst then
        if c.pos ≤ b.pos then some c else some b
      else
        if b.pos ≤ c.pos then some c else some b

/-- Modelled from the spec: `getElementLineIntersection` of
`src/lib/layout/LayoutUtil.js`, which is repository code not present under
`src/`. Per spec sections 4.4 and 7: a missing or empty shape path yields
no intersection; otherwise the crossings of the shape boundary with the
connection path are enumerated (by the external path-intersection library,
abstracted as the `crossings` argument) and the crossing nearest the start
of the connection path is returned when `takeFirst` is true, the one
nearest its end otherwise; no crossings yields nothing. -/
def getElementLineIntersection (crossings : ShapePath → ConnectionPath → List Crossing)
    (shapePath : Option ShapePath) (connectionPath : ConnectionPath)
    (takeFirst : Bool) : Option Point :=
  match shapePath with
  | none => none
  | some sp =>
    if sp.segs.isEmpty then none
    else (pickCrossing takeFirst (crossings sp connectionPath)).map Crossing.point

/-- The graphics factory collaborator: produces the current path
representation of a shape or of a waypoint sequence. An absent shape or an
unrendered shape may yield no shape path. -/
structure GraphicsFactory where
  getShapePath : Option Shape → Option ShapePath
  getConnectionPath : List Waypoint → ConnectionPath

/-- The cropping docking engine, holding its injected graphics factory and
the crossing enumerator of the external path-intersection library. -/
structure CroppingConnectionDocking where
  graphicsFactory : GraphicsFactory
  crossings : ShapePath → ConnectionPath → List Crossing

/-- `dockingToPoint`: `assign({ original: docking.point.original || docking.point }, docking.actual)`.
The result has the coordinates of `docking.actual`; its `original` field is
`docking.actual.original` when that property is present (`assign` copies it
over the freshly set anchor), otherwise `docking.point.original || docking.point`. -/
def dockingToPoint (docking : DockingPointDescriptor) : Waypoint :=
  { x := docking.actual.x,
    y := docking.actual.y,
    original := docking.actual.original.orElse fun _ =>
      some (docking.point.original.getD (pointOf docking.point)) }

/-- `this._getShapePath(shape)`. -/
def CroppingConnectionDocking.getShapePath (d : CroppingConnectionDocking)
    (shape : Option Shape) : Option ShapePath :=
  d.graphicsFactory.getShapePath shape

/-- `this._getConnectionPath(waypoints)`. -/
def CroppingConnectionDocking.getConnectionPath (d : CroppingConnectionDocking)
    (waypoints : List Waypoint) : ConnectionPath :=
  d.graphicsFactory.getConnectionPath waypoints

/-- `this._getIntersection(shape, waypoints, takeFirst)`. -/
def CroppingConnectionDocking.getIntersection (d : CroppingConnectionDocking)
    (shape : Option Shape) (waypoints : List Waypoint) (takeFirst : Bool) : Option Point :=
  getElementLineIntersection d.crossings (d.getShapePath shape)
    (d.getConnectionPath waypoints) takeFirst

/-- `CroppingConnectionDocking.prototype.getDockingPoint`. -/
def CroppingConnectionDocking.getDockingPoint (d : CroppingConnectionDocking)
    (waypoints : List Waypoint) (shape : Option Shape) (dockStart : Bool) :
    DockingPointDescriptor :=
  let dockingIdx := if dockStart then 0 else waypoints.length - 1
  let dockingPoint := waypoints.getD dockingIdx wpd
  let croppedPoint := d.getIntersection shape waypoints dockStart
  { point := dockingPoint,
    actual :=
      match croppedPoint with
      | some p => liftPoint p
      | none => dockingPoint,
    idx := dockingIdx }

/-- `CroppingConnectionDocking.prototype.getCroppedWaypoints`. -/
def CroppingConnectionDocking.getCroppedWaypoints (d : CroppingConnectionDocking)
    (connectionOrWaypoints : ConnectionOrWaypoints)
    (source target : Option Shape) : List Waypoint :=
  let src := resolvedSource connectionOrWaypoints source
  let tgt := resolvedTarget connectionOrWaypoints target
  let waypoints := resolveWaypoints connectionOrWaypoints
  let sourceDocking := d.getDockingPoint waypoints src true
  let targetDocking := d.getDockingPoint waypoints tgt false
  let croppedWaypoints := jsSlice waypoints (sourceDocking.idx + 1) targetDocking.idx
  dockingToPoint sourceDocking :: (croppedWaypoints ++ [dockingToPoint targetDocking])

/-- `ConnectionDocking.prototype.getCroppedWaypoints` (identity docking):
returns `connectionOrWaypoints.waypoints || connectionOrWaypoints`. -/
def ConnectionDocking.getCroppedWaypoints (connectionOrWaypoints : ConnectionOrWaypoints)
    (_source _target : Option Shape) : List Waypoint :=
  resolveWaypoints connectionOrWaypoints

/-- `ConnectionDocking.prototype.getDockingPoint` (identity docking). -/
def ConnectionDocking.getDockingPoint (waypoints : List Waypoint)
    (_shape : Option Shape) (dockStart : Bool) : DockingPointDescriptor :=
  let dockingIdx := if dockStart then 0 else waypoints.length - 1
  let dockingPoint := waypoints.getD dockingIdx wpd
  { point := dockingPoint,
    actual := dockingPoint,
    idx := dockingIdx }

/-- The logical anchor a waypoint contributes when it becomes a docking
endpoint: its `original` field when present, else the waypoint itself. -/
def anchorOf (w : Waypoint) : Point :=
  w.original.getD (pointOf w)

/-- A shape path is empty or absent. -/
def emptyOrAbsent (osp : Option ShapePath) : Prop :=
  osp = none ∨ ∃ sp, osp = some sp ∧ sp.segs = []

instance (osp : Option ShapePath) : Decidable (emptyOrAbsent osp) := by
  unfold emptyOrAbsent
  cases osp with
  | none => exact isTrue (Or.inl rfl)
  | some sp =>
    by_cases h : sp.segs = []
    · exact isTrue (Or.inr ⟨sp, rfl, h⟩)
    · refine isFalse ?_
      rintro (hc | ⟨sp', hsp, he⟩)
      · exact Option.noConfusion hc
      · cases Option.some.inj hsp
        exact h he

/-! ### Helper lemmas -/

theorem getLast?_append_single (l : List α) (b : α) : (l ++ [b]).getLast? = some b := by
  induction l with
  | nil => rfl
  | cons a l ih =>
    cases l with
    | nil => rfl
    | cons c cs =>
      rw [List.cons_append, List.cons_append, List.getLast?_cons_cons]
      exact ih

theorem getD_append_length (l : List α) (b d : α) : (l ++ [b]).getD l.length d = b := by
  induction l with
  | nil => rfl
  | cons a l ih =>
    simp [List.getD]

theorem get?_eq_some_getD (l : List α) (n : Nat) (d : α) (h : n < l.length) :
    l.get? n = some (l.getD n d) := by
  induction l generalizing n with
  | nil => simp at h
  | cons a l ih =>
    cases n with
    | zero => rfl
    | succ m => exact ih m (Nat.lt_of_succ_lt_succ h)

/-- Unfolding of the cropping `getCroppedWaypoints` into its parts. -/
theorem getCroppedWaypoints_eq (d : CroppingConnectionDocking)
    (cw : ConnectionOrWaypoints) (s t : Option Shape) :
    d.getCroppedWaypoints cw s t
      = dockingToPoint (d.getDockingPoint (resolveWaypoints cw) (resolvedSource cw s) true)
          :: (jsSlice (resolveWaypoints cw)
                ((d.getDockingPoint (resolveWaypoints cw) (resolvedSource cw s) true).idx + 1)
                ((d.getDockingPoint (resolveWaypoints cw) (resolvedTarget cw t) false).idx)
              ++ [dockingToPoint (d.getDockingPoint (resolveWaypoints cw) (resolvedTarget cw t) false)]) :=
  rfl

theorem getDockingPoint_idx (d : CroppingConnectionDocking) (ws : List Waypoint)
    (sh : Option Shape) (b : Bool) :
    (d.getDockingPoint ws sh b).idx = if b then 0 else ws.length - 1 :=
  rfl

theorem getDockingPoint_point (d : CroppingConnectionDocking) (ws : List Waypoint)
    (sh : Option Shape) (b : Bool) :
    (d.getDockingPoint ws sh b).point = ws.getD (if b then 0 else ws.length - 1) wpd :=
  rfl

theorem getDockingPoint_actual (d : CroppingConnectionDocking) (ws : List Waypoint)
    (sh : Option Shape) (b : Bool) :
    (d.getDockingPoint ws sh b).actual
      = (match d.getIntersection sh ws b with
         | some p => liftPoint p
         | none => ws.getD (if b then 0 else ws.length - 1) wpd) :=
  rfl

theorem dockingToPoint_pointOf (dk : DockingPointDescriptor) :
    pointOf (dockingToPoint dk) = pointOf dk.actual :=
  rfl

/-- Value of the cropping `getDockingPoint` when the intersection primitive
reports a crossing. -/
theorem getDockingPoint_eq_some (d : CroppingConnectionDocking) (ws : List Waypoint)
    (sh : Option Shape) (b : Bool) (p : Point) (h : d.getIntersection sh ws b = some p) :
    d.getDockingPoint ws sh b
      = { point := ws.getD (if b then 0 else ws.length - 1) wpd,
          actual := liftPoint p,
          idx := if b then 0 else ws.length - 1 } := by
  simp only [CroppingConnectionDocking.getDockingPoint, h]

/-- Value of the cropping `getDockingPoint` when the intersection primitive
reports no crossing. -/
theorem getDockingPoint_eq_none (d : CroppingConnectionDocking) (ws : List Waypoint)
    (sh : Option Shape) (b : Bool) (h : d.getIntersection sh ws b = none) :
    d.getDockingPoint ws sh b
      = { point := ws.getD (if b then 0 else ws.length - 1) wpd,
          actual := ws.getD (if b then 0 else ws.length - 1) wpd,
          idx := if b then 0 else ws.length - 1 } := by
  simp only [CroppingConnectionDocking.getDockingPoint, h]

theorem dockingToPoint_original_of_liftPoint (w : Waypoint) (p : Point) (i : Nat) :
    (dockingToPoint { point := w, actual := liftPoint p, idx := i }).original
      = some (anchorOf w) :=
  rfl

theorem dockingToPoint_original_of_self (w : Waypoint) (i : Nat) :
    (dockingToPoint { point := w, actual := w, idx := i }).original
      = some (anchorOf w) := by
  cases w with
  | mk x y orig =>
    cases orig with
    | some o => rfl
    | none => rfl

/-- The `original` field of a docking turned endpoint is always the logical
anchor of the raw waypoint at the docking index. -/
theorem dockingToPoint_original_eq (d : CroppingConnectionDocking) (ws : List Waypoint)
    (sh : Option Shape) (b : Bool) :
    (dockingToPoint (d.getDockingPoint ws sh b)).original
      = some (anchorOf ((d.getDockingPoint ws sh b).point)) := by
  cases h : d.getIntersection sh ws b with
  | some p =>
    rw [getDockingPoint_eq_some d ws sh b p h]
    exact dockingToPoint_original_of_liftPoint ..
  | none =>
    rw [getDockingPoint_eq_none d ws sh b h]
    exact dockingToPoint_original_of_self ..

/-! ### Concrete instances (spec section 8 worked example geometry) -/

/-- Graphics factory used to exercise the engine: shape id 0 has no
rendered path, other shapes get a one-segment path tagged by their id. -/
def exFactory : GraphicsFactory where
  getShapePath sh :=
    match sh with
    | some s => if s.id = 0 then none else some { segs := [s.id] }
    | none => none
  getConnectionPath ws := { dat := ws.map Waypoint.x }

/-- Crossing enumerator for the worked example: the source rectangle's
right edge is crossed at (100, 50) near the path start, the target
rectangle's left edge at (200, 50) near its end. -/
def exCrossings (sp : ShapePath) (_cp : ConnectionPath) : List Crossing :=
  if sp.segs = [1] then [{ pos := 0, point := { x := 100, y := 50 } }]
  else if sp.segs = [2] then [{ pos := 5, point := { x := 200, y := 50 } }]
  else []

/-- A cropping engine over the example collaborators. -/
def exDocking : CroppingConnectionDocking where
  graphicsFactory := exFactory
  crossings := exCrossings

def exW1 : Waypoint := { x := 50, y := 50 }

def exW2 : Waypoint := { x := 250, y := 50 }

def exW3 : Waypoint := { x := 150, y := 80 }

/-! ### Claim theorems -/

/-- C1: for every connector with at least two waypoints, the first point of
the list returned by the cropping `getCroppedWaypoints` equals, in
coordinates, `getDockingPoint(waypoints, source, true).actual`, and the
last point equals `getDockingPoint(waypoints, target, false).actual`. -/
theorem crop_endpoints_eq_docking_actuals (d : CroppingConnectionDocking)
    (cw : ConnectionOrWaypoints) (s t : Option Shape)
    (h : 2 ≤ (resolveWaypoints cw).length) :
    ((d.getCroppedWaypoints cw s t).head?).map pointOf
        = some (pointOf ((d.getDockingPoint (resolveWaypoints cw) (resolvedSource cw s) true).actual))
    ∧ ((d.getCroppedWaypoints cw s t).getLast?).map pointOf
        = some (pointOf ((d.getDockingPoint (resolveWaypoints cw) (resolvedTarget cw t) false).actual)) := by
  rw [getCroppedWaypoints_eq]
  refine ⟨rfl, ?_⟩
  rw [← List.cons_append, getLast?_append_single]
  rfl

/-- C1 witness: the theorem applied to the spec's worked example. -/
theorem crop_endpoints_eq_docking_actuals_witness :
    2 ≤ (resolveWaypoints (.wps [exW1, exW2])).length
    ∧ (((exDocking.getCroppedWaypoints (.wps [exW1, exW2]) (some (Shape.mk 1)) (some (Shape.mk 2))).head?).map pointOf
          = some (pointOf ((exDocking.getDockingPoint (resolveWaypoints (.wps [exW1, exW2]))
              (resolvedSource (.wps [exW1, exW2]) (some (Shape.mk 1))) true).actual))
        ∧ ((exDocking.getCroppedWaypoints (.wps [exW1, exW2]) (some (Shape.mk 1)) (some (Shape.mk 2))).getLast?).map pointOf
          = some (pointOf ((exDocking.getDockingPoint (resolveWaypoints (.wps [exW1, exW2]))
              (resolvedTarget (.wps [exW1, exW2]) (some (Shape.mk 2))) false).actual))) :=
  ⟨by decide, crop_endpoints_eq_docking_actuals exDocking (.wps [exW1, exW2])
    (some (Shape.mk 1)) (some (Shape.mk 2)) (by decide)⟩

/-- C2: for a waypoint list with at least two points, the cropping
`getDockingPoint` returns `idx = 0` for the source end and
`idx = length - 1` for the target end, `point` the waypoint at that index,
and `actual` the intersection computed with `preferFirst = dockStart` when
one exists, the raw waypoint otherwise. -/
theorem cropping_getDockingPoint_spec (d : CroppingConnectionDocking)
    (ws : List Waypoint) (sh : Option Shape) (dockStart : Bool)
    (h : 2 ≤ ws.length) :
    (d.getDockingPoint ws sh dockStart).idx = (if dockStart then 0 else ws.length - 1)
    ∧ ws.get? (d.getDockingPoint ws sh dockStart).idx
        = some ((d.getDockingPoint ws sh dockStart).point)
    ∧ (d.getDockingPoint ws sh dockStart).actual
        = (match d.getIntersection sh ws dockStart with
           | some p => liftPoint p
           | none => (d.getDockingPoint ws sh dockStart).point) := by
  refine ⟨rfl, ?_, ?_⟩
  · rw [getDockingPoint_idx, getDockingPoint_point]
    apply get?_eq_some_getD
    cases dockStart <;> simp <;> omega
  · rfl

/-- C2 witness: the theorem applied to the worked example, target end. -/
theorem cropping_getDockingPoint_spec_witness :
    2 ≤ ([exW1, exW2] : List Waypoint).length
    ∧ ((exDocking.getDockingPoint [exW1, exW2] (some (Shape.mk 2)) false).idx
          = (if false then 0 else ([exW1, exW2] : List Waypoint).length - 1)
        ∧ ([exW1, exW2] : List Waypoint).get? (exDocking.getDockingPoint [exW1, exW2] (some (Shape.mk 2)) false).idx
          = some ((exDocking.getDockingPoint [exW1, exW2] (some (Shape.mk 2)) false).point)
        ∧ (exDocking.getDockingPoint [exW1, exW2] (some (Shape.mk 2)) false).actual
          = (match exDocking.getIntersection (some (Shape.mk 2)) [exW1, exW2] false with
             | some p => liftPoint p
             | none => (exDocking.getDockingPoint [exW1, exW2] (some (Shape.mk 2)) false).point)) :=
  ⟨by decide, cropping_getDockingPoint_spec exDocking [exW1, exW2] (some (Shape.mk 2)) false (by decide)⟩

/-- C3: for valid connectors (at least two waypoints) the cropped result
has length at least two; with exactly two waypoints the interior slice is
empty and the result is exactly the two docking endpoints, whose
coordinates are the source and target actuals. -/
theorem crop_length_and_two_point_case (d : CroppingConnectionDocking)
    (cw : ConnectionOrWaypoints) (s t : Option Shape)
    (h : 2 ≤ (resolveWaypoints cw).length) :
    2 ≤ (d.getCroppedWaypoints cw s t).length
    ∧ ((resolveWaypoints cw).length = 2 →
        d.getCroppedWaypoints cw s t
          = [dockingToPoint (d.getDockingPoint (resolveWaypoints cw) (resolvedSource cw s) true),
             dockingToPoint (d.getDockingPoint (resolveWaypoints cw) (resolvedTarget cw t) false)]
        ∧ pointOf (dockingToPoint (d.getDockingPoint (resolveWaypoints cw) (resolvedSource cw s) true))
            = pointOf ((d.getDockingPoint (resolveWaypoints cw) (resolvedSource cw s) true).actual)
        ∧ pointOf (dockingToPoint (d.getDockingPoint (resolveWaypoints cw) (resolvedTarget cw t) false))
            = pointOf ((d.getDockingPoint (resolveWaypoints cw) (resolvedTarget cw t) false).actual)) := by
  constructor
  · rw [getCroppedWaypoints_eq]
    simp only [List.length_cons, List.length_append, List.length_singleton]
    omega
  · intro h2
    refine ⟨?_, rfl, rfl⟩
    rw [getCroppedWaypoints_eq, getDockingPoint_idx, getDockingPoint_idx, h2]
    simp [jsSlice]

/-- C3 witness: the theorem applied to the spec's worked example. -/
theorem crop_length_and_two_point_case_witness :
    2 ≤ (resolveWaypoints (.wps [exW1, exW2])).length
    ∧ (2 ≤ (exDocking.getCroppedWaypoints (.wps [exW1, exW2]) (some (Shape.mk 1)) (some (Shape.mk 2))).length
        ∧ ((resolveWaypoints (.wps [exW1, exW2])).length = 2 →
            exDocking.getCroppedWaypoints (.wps [exW1, exW2]) (some (Shape.mk 1)) (some (Shape.mk 2))
              = [dockingToPoint (exDocking.getDockingPoint (resolveWaypoints (.wps [exW1, exW2]))
                    (resolvedSource (.wps [exW1, exW2]) (some (Shape.mk 1))) true),
                 dockingToPoint (exDocking.getDockingPoint (resolveWaypoints (.wps [exW1, exW2]))
                    (resolvedTarget (.wps [exW1, exW2]) (some (Shape.mk 2))) false)]
            ∧ pointOf (dockingToPoint (exDocking.getDockingPoint (resolveWaypoints (.wps [exW1, exW2]))
                    (resolvedSource (.wps [exW1, exW2]) (some (Shape.mk 1))) true))
                = pointOf ((exDocking.getDockingPoint (resolveWaypoints (.wps [exW1, exW2]))
                    (resolvedSource (.wps [exW1, exW2]) (some (Shape.mk 1))) true).actual)
            ∧ pointOf (dockingToPoint (exDocking.getDockingPoint (resolveWaypoints (.wps [exW1, exW2]))
                    (resolvedTarget (.wps [exW1, exW2]) (some (Shape.mk 2))) false))
                = pointOf ((exDocking.getDockingPoint (resolveWaypoints (.wps [exW1, exW2]))
                    (resolvedTarget (.wps [exW1, exW2]) (some (Shape.mk 2))) false).actual))) :=
  ⟨by decide, crop_length_and_two_point_case exDocking (.wps [exW1, exW2])
    (some (Shape.mk 1)) (some (Shape.mk 2)) (by decide)⟩

theorem anchorOf_dockingToPoint (d : CroppingConnectionDocking) (ws : List Waypoint)
    (sh : Option Shape) (b : Bool) :
    anchorOf (dockingToPoint (d.getDockingPoint ws sh b))
      = anchorOf ((d.getDockingPoint ws sh b).point) := by
  have he := dockingToPoint_original_eq d ws sh b
  unfold anchorOf
  rw [he]
  rfl

theorem getD_last_of_append (l : List α) (b d : α) :
    (l ++ [b]).getD ((l ++ [b]).length - 1) d = b := by
  have hl : (l ++ [b]).length - 1 = l.length := by simp
  rw [hl, getD_append_length]

/-- The head endpoint of any cropped result carries the logical anchor of
the first input waypoint. -/
theorem crop_head_original (dd : CroppingConnectionDocking)
    (cwx : ConnectionOrWaypoints) (sx tx : Option Shape) :
    ((dd.getCroppedWaypoints cwx sx tx).head?).bind Waypoint.original
      = some (anchorOf ((resolveWaypoints cwx).getD 0 wpd)) := by
  rw [getCroppedWaypoints_eq]
  show (dockingToPoint (dd.getDockingPoint (resolveWaypoints cwx) (resolvedSource cwx sx) true)).original = _
  rw [dockingToPoint_original_eq, getDockingPoint_point]
  rfl

/-- The last endpoint of any cropped result carries the logical anchor of
the last input waypoint. -/
theorem crop_last_original (dd : CroppingConnectionDocking)
    (cwx : ConnectionOrWaypoints) (sx tx : Option Shape) :
    ((dd.getCroppedWaypoints cwx sx tx).getLast?).bind Waypoint.original
      = some (anchorOf ((resolveWaypoints cwx).getD ((resolveWaypoints cwx).length - 1) wpd)) := by
  rw [getCroppedWaypoints_eq, ← List.cons_append, getLast?_append_single]
  show (dockingToPoint (dd.getDockingPoint (resolveWaypoints cwx) (resolvedTarget cwx tx) false)).original = _
  rw [dockingToPoint_original_eq, getDockingPoint_point]
  rfl

/-- C4: each endpoint of the cropped result carries `original` equal to the
corresponding input endpoint's `original` field when present, otherwise the
input endpoint itself; cropping an already-cropped connector preserves each
endpoint's `original` from the first crop (even under different geometry). -/
theorem crop_preserves_original_anchor (d d' : CroppingConnectionDocking)
    (cw : ConnectionOrWaypoints) (s t s' t' : Option Shape)
    (h : 1 ≤ (resolveWaypoints cw).length) :
    ((d.getCroppedWaypoints cw s t).head?).bind Waypoint.original
        = some (anchorOf ((resolveWaypoints cw).getD 0 wpd))
    ∧ ((d.getCroppedWaypoints cw s t).getLast?).bind Waypoint.original
        = some (anchorOf ((resolveWaypoints cw).getD ((resolveWaypoints cw).length - 1) wpd))
    ∧ ((d'.getCroppedWaypoints (.wps (d.getCroppedWaypoints cw s t)) s' t').head?).bind Waypoint.original
        = ((d.getCroppedWaypoints cw s t).head?).bind Waypoint.original
    ∧ ((d'.getCroppedWaypoints (.wps (d.getCroppedWaypoints cw s t)) s' t').getLast?).bind Waypoint.original
        = ((d.getCroppedWaypoints cw s t).getLast?).bind Waypoint.original := by
  refine ⟨crop_head_original d cw s t, crop_last_original d cw s t, ?_, ?_⟩
  · rw [crop_head_original d' (.wps (d.getCroppedWaypoints cw s t)) s' t',
        crop_head_original d cw s t]
    show some (anchorOf (dockingToPoint (d.getDockingPoint (resolveWaypoints cw) (resolvedSource cw s) true))) = _
    rw [anchorOf_dockingToPoint, getDockingPoint_point]
    rfl
  · rw [crop_last_original d' (.wps (d.getCroppedWaypoints cw s t)) s' t',
        crop_last_original d cw s t]
    have e1 : resolveWaypoints (.wps (d.getCroppedWaypoints cw s t))
        = (dockingToPoint (d.getDockingPoint (resolveWaypoints cw) (resolvedSource cw s) true)
            :: jsSlice (resolveWaypoints cw)
                ((d.getDockingPoint (resolveWaypoints cw) (resolvedSource cw s) true).idx + 1)
                ((d.getDockingPoint (resolveWaypoints cw) (resolvedTarget cw t) false).idx))
          ++ [dockingToPoint (d.getDockingPoint (resolveWaypoints cw) (resolvedTarget cw t) false)] := by
      rw [show resolveWaypoints (.wps (d.getCroppedWaypoints cw s t))
            = d.getCroppedWaypoints cw s t from rfl,
          getCroppedWaypoints_eq, List.cons_append]
    rw [e1, getD_last_of_append, anchorOf_dockingToPoint, getDockingPoint_point]
    rfl

/-- C4 witness: the theorem applied to the worked example and a re-crop
with no resolvable shapes. -/
theorem crop_preserves_original_anchor_witness :
    1 ≤ (resolveWaypoints (.wps [exW1, exW2])).length
    ∧ (((exDocking.getCroppedWaypoints (.wps [exW1, exW2]) (some (Shape.mk 1)) (some (Shape.mk 2))).head?).bind Waypoint.original
          = some (anchorOf ((resolveWaypoints (.wps [exW1, exW2])).getD 0 wpd))
        ∧ ((exDocking.getCroppedWaypoints (.wps [exW1, exW2]) (some (Shape.mk 1)) (some (Shape.mk 2))).getLast?).bind Waypoint.original
          = some (anchorOf ((resolveWaypoints (.wps [exW1, exW2])).getD ((resolveWaypoints (.wps [exW1, exW2])).length - 1) wpd))
        ∧ ((exDocking.getCroppedWaypoints (.wps (exDocking.getCroppedWaypoints (.wps [exW1, exW2]) (some (Shape.mk 1)) (some (Shape.mk 2)))) none none).head?).bind Waypoint.original
          = ((exDocking.getCroppedWaypoints (.wps [exW1, exW2]) (some (Shape.mk 1)) (some (Shape.mk 2))).head?).bind Waypoint.original
        ∧ ((exDocking.getCroppedWaypoints (.wps (exDocking.getCroppedWaypoints (.wps [exW1, exW2]) (some (Shape.mk 1)) (some (Shape.mk 2)))) none none).getLast?).bind Waypoint.original
          = ((exDocking.getCroppedWaypoints (.wps [exW1, exW2]) (some (Shape.mk 1)) (some (Shape.mk 2))).getLast?).bind Waypoint.original) :=
  ⟨by decide, crop_preserves_original_anchor exDocking exDocking (.wps [exW1, exW2])
    (some (Shape.mk 1)) (some (Shape.mk 2)) none none (by decide)⟩

/-- C5: for a connector with at least three waypoints the cropped result is
the source endpoint, followed by the input waypoints at indices 1 through
N-2 unchanged and in order, followed by the target endpoint; the result
keeps the input length. -/
theorem crop_preserves_interior (d : CroppingConnectionDocking)
    (cw : ConnectionOrWaypoints) (s t : Option Shape)
    (h : 3 ≤ (resolveWaypoints cw).length) :
    d.getCroppedWaypoints cw s t
      = dockingToPoint (d.getDockingPoint (resolveWaypoints cw) (resolvedSource cw s) true)
        :: (((resolveWaypoints cw).drop 1).take ((resolveWaypoints cw).length - 2)
            ++ [dockingToPoint (d.getDockingPoint (resolveWaypoints cw) (resolvedTarget cw t) false)])
    ∧ (d.getCroppedWaypoints cw s t).length = (resolveWaypoints cw).length := by
  have hslice : jsSlice (resolveWaypoints cw)
      ((d.getDockingPoint (resolveWaypoints cw) (resolvedSource cw s) true).idx + 1)
      ((d.getDockingPoint (resolveWaypoints cw) (resolvedTarget cw t) false).idx)
      = ((resolveWaypoints cw).drop 1).take ((resolveWaypoints cw).length - 2) := by
    rw [getDockingPoint_idx, getDockingPoint_idx]
    show jsSlice (resolveWaypoints cw) 1 ((resolveWaypoints cw).length - 1) = _
    unfold jsSlice
    have harith : (resolveWaypoints cw).length - 1 - 1 = (resolveWaypoints cw).length - 2 := by
      omega
    rw [harith]
  constructor
  · rw [getCroppedWaypoints_eq, hslice]
  · rw [getCroppedWaypoints_eq, hslice]
    simp only [List.length_cons, List.length_append, List.length_take, List.length_drop,
      List.length_singleton, List.length_nil]
    omega

/-- C5 witness: the theorem applied to a three-waypoint connector. -/
theorem crop_preserves_interior_witness :
    3 ≤ (resolveWaypoints (.wps [exW1, exW3, exW2])).length
    ∧ (exDocking.getCroppedWaypoints (.wps [exW1, exW3, exW2]) (some (Shape.mk 1)) (some (Shape.mk 2))
        = dockingToPoint (exDocking.getDockingPoint (resolveWaypoints (.wps [exW1, exW3, exW2]))
              (resolvedSource (.wps [exW1, exW3, exW2]) (some (Shape.mk 1))) true)
          :: (((resolveWaypoints (.wps [exW1, exW3, exW2])).drop 1).take
                ((resolveWaypoints (.wps [exW1, exW3, exW2])).length - 2)
              ++ [dockingToPoint (exDocking.getDockingPoint (resolveWaypoints (.wps [exW1, exW3, exW2]))
                    (resolvedTarget (.wps [exW1, exW3, exW2]) (some (Shape.mk 2))) false)])
      ∧ (exDocking.getCroppedWaypoints (.wps [exW1, exW3, exW2]) (some (Shape.mk 1)) (some (Shape.mk 2))).length
        = (resolveWaypoints (.wps [exW1, exW3, exW2])).length) :=
  ⟨by decide, crop_preserves_interior exDocking (.wps [exW1, exW3, exW2])
    (some (Shape.mk 1)) (some (Shape.mk 2)) (by decide)⟩

/-- A missing or empty shape path yields no intersection. -/
theorem intersection_of_missing (cr : ShapePath → ConnectionPath → List Crossing)
    (osp : Option ShapePath) (cp : ConnectionPath) (b : Bool)
    (h : emptyOrAbsent osp) :
    getElementLineIntersection cr osp cp b = none := by
  rcases h with h | ⟨sp, hsp, he⟩
  · rw [h]
    rfl
  · rw [hsp]
    simp [getElementLineIntersection, he]

/-- C6: fallback law. When the docking shape's path is empty or absent, or
the intersection primitive finds no crossing, `getDockingPoint`'s `actual`
equals the raw waypoint at the docking index, and the corresponding cropped
endpoint has exactly the raw waypoint's coordinates; the computation is
total, so no error is raised. -/
theorem crop_missing_geometry_fallback (d : CroppingConnectionDocking)
    (cw : ConnectionOrWaypoints) (s t : Option Shape) (dockStart : Bool)
    (h : 1 ≤ (resolveWaypoints cw).length)
    (hmiss : emptyOrAbsent (d.getShapePath (if dockStart then resolvedSource cw s else resolvedTarget cw t))
             ∨ d.getIntersection (if dockStart then resolvedSource cw s else resolvedTarget cw t)
                 (resolveWaypoints cw) dockStart = none) :
    (d.getDockingPoint (resolveWaypoints cw) (if dockStart then resolvedSource cw s else resolvedTarget cw t) dockStart).actual
        = (d.getDockingPoint (resolveWaypoints cw) (if dockStart then resolvedSource cw s else resolvedTarget cw t) dockStart).point
    ∧ (d.getDockingPoint (resolveWaypoints cw) (if dockStart then resolvedSource cw s else resolvedTarget cw t) dockStart).point
        = (resolveWaypoints cw).getD (if dockStart then 0 else (resolveWaypoints cw).length - 1) wpd
    ∧ (dockStart = true →
        ((d.getCroppedWaypoints cw s t).head?).map pointOf
          = some (pointOf ((resolveWaypoints cw).getD 0 wpd)))
    ∧ (dockStart = false →
        ((d.getCroppedWaypoints cw s t).getLast?).map pointOf
          = some (pointOf ((resolveWaypoints cw).getD ((resolveWaypoints cw).length - 1) wpd))) := by
  cases dockStart with
  | true =>
    have hnone : d.getIntersection (resolvedSource cw s) (resolveWaypoints cw) true = none := by
      rcases hmiss with hm | hm
      · exact intersection_of_missing d.crossings _ (d.getConnectionPath (resolveWaypoints cw)) true hm
      · exact hm
    have hd := getDockingPoint_eq_none d (resolveWaypoints cw) (resolvedSource cw s) true hnone
    refine ⟨?_, ?_, ?_, ?_⟩
    · show (d.getDockingPoint (resolveWaypoints cw) (resolvedSource cw s) true).actual
        = (d.getDockingPoint (resolveWaypoints cw) (resolvedSource cw s) true).point
      rw [hd]
    · show (d.getDockingPoint (resolveWaypoints cw) (resolvedSource cw s) true).point
        = (resolveWaypoints cw).getD 0 wpd
      rw [hd]
      rfl
    · intro _
      rw [getCroppedWaypoints_eq]
      show some (pointOf (dockingToPoint (d.getDockingPoint (resolveWaypoints cw) (resolvedSource cw s) true))) = _
      rw [dockingToPoint_pointOf, hd]
      rfl
    · intro hfalse
      exact Bool.noConfusion hfalse
  | false =>
    have hnone : d.getIntersection (resolvedTarget cw t) (resolveWaypoints cw) false = none := by
      rcases hmiss with hm | hm
      · exact intersection_of_missing d.crossings _ (d.getConnectionPath (resolveWaypoints cw)) false hm
      · exact hm
    have hd := getDockingPoint_eq_none d (resolveWaypoints cw) (resolvedTarget cw t) false hnone
    refine ⟨?_, ?_, ?_, ?_⟩
    · show (d.getDockingPoint (resolveWaypoints cw) (resolvedTarget cw t) false).actual
        = (d.getDockingPoint (resolveWaypoints cw) (resolvedTarget cw t) false).point
      rw [hd]
    · show (d.getDockingPoint (resolveWaypoints cw) (resolvedTarget cw t) false).point
        = (resolveWaypoints cw).getD ((resolveWaypoints cw).length - 1) wpd
      rw [hd]
      rfl
    · intro htrue
      exact Bool.noConfusion htrue
    · intro _
      rw [getCroppedWaypoints_eq, ← List.cons_append, getLast?_append_single]
      show some (pointOf (dockingToPoint (d.getDockingPoint (resolveWaypoints cw) (resolvedTarget cw t) false))) = _
      rw [dockingToPoint_pointOf, hd]
      rfl

/-- C6 witness: the theorem applied at a source shape whose path is absent. -/
theorem crop_missing_geometry_fallback_witness :
    1 ≤ (resolveWaypoints (.wps [exW1, exW2])).length
    ∧ (emptyOrAbsent (exDocking.getShapePath (if true then resolvedSource (.wps [exW1, exW2]) (some (Shape.mk 0)) else resolvedTarget (.wps [exW1, exW2]) (some (Shape.mk 2))))
        ∨ exDocking.getIntersection (if true then resolvedSource (.wps [exW1, exW2]) (some (Shape.mk 0)) else resolvedTarget (.wps [exW1, exW2]) (some (Shape.mk 2)))
            (resolveWaypoints (.wps [exW1, exW2])) true = none)
    ∧ ((exDocking.getDockingPoint (resolveWaypoints (.wps [exW1, exW2])) (if true then resolvedSource (.wps [exW1, exW2]) (some (Shape.mk 0)) else resolvedTarget (.wps [exW1, exW2]) (some (Shape.mk 2))) true).actual
          = (exDocking.getDockingPoint (resolveWaypoints (.wps [exW1, exW2])) (if true then resolvedSource (.wps [exW1, exW2]) (some (Shape.mk 0)) else resolvedTarget (.wps [exW1, exW2]) (some (Shape.mk 2))) true).point
        ∧ (exDocking.getDockingPoint (resolveWaypoints (.wps [exW1, exW2])) (if true then resolvedSource (.wps [exW1, exW2]) (some (Shape.mk 0)) else resolvedTarget (.wps [exW1, exW2]) (some (Shape.mk 2))) true).point
          = (resolveWaypoints (.wps [exW1, exW2])).getD (if true then 0 else (resolveWaypoints (.wps [exW1, exW2])).length - 1) wpd
        ∧ (true = true →
            ((exDocking.getCroppedWaypoints (.wps [exW1, exW2]) (some (Shape.mk 0)) (some (Shape.mk 2))).head?).map pointOf
              = some (pointOf ((resolveWaypoints (.wps [exW1, exW2])).getD 0 wpd)))
        ∧ (true = false →
            ((exDocking.getCroppedWaypoints (.wps [exW1, exW2]) (some (Shape.mk 0)) (some (Shape.mk 2))).getLast?).map pointOf
              = some (pointOf ((resolveWaypoints (.wps [exW1, exW2])).getD ((resolveWaypoints (.wps [exW1, exW2])).length - 1) wpd)))) :=
  ⟨by decide, by decide,
    crop_missing_geometry_fallback exDocking (.wps [exW1, exW2]) (some (Shape.mk 0)) (some (Shape.mk 2)) true
      (by decide) (by decide)⟩

/-- C7 counterexample: on a malformed single-waypoint sequence with no
resolvable endpoint shapes, the cropping `getCroppedWaypoints` signals no
error at all: it computes and returns an ordinary two-element waypoint
list (the claim asserts an explicit error is signalled instead of a
computed result). -/
theorem crop_invalid_input_counterexample :
    exDocking.getCroppedWaypoints (.wps [{ x := 5, y := 7 }]) none none
      = [{ x := 5, y := 7, original := some { x := 5, y := 7 } },
         { x := 5, y := 7, original := some { x := 5, y := 7 } }] := by
  decide

/-- C7 amended: the engine performs no input validation. On a
single-waypoint sequence with unresolvable endpoint shapes (the absent
shape yields no shape path), both dockings use index 0 and a two-element
fallback result is computed; no error is signalled by these functions. -/
theorem crop_invalid_input_no_validation (d : CroppingConnectionDocking) (w : Waypoint)
    (hnone : d.getShapePath none = none) :
    d.getCroppedWaypoints (.wps [w]) none none
      = [{ x := w.x, y := w.y, original := some (anchorOf w) },
         { x := w.x, y := w.y, original := some (anchorOf w) }] := by
  have hint : ∀ b : Bool, d.getIntersection none [w] b = none := by
    intro b
    show getElementLineIntersection d.crossings (d.getShapePath none) (d.getConnectionPath [w]) b = none
    rw [hnone]
    rfl
  have hs := getDockingPoint_eq_none d [w] none true (hint true)
  have ht := getDockingPoint_eq_none d [w] none false (hint false)
  rw [getCroppedWaypoints_eq]
  show dockingToPoint (d.getDockingPoint [w] none true)
      :: (jsSlice [w] ((d.getDockingPoint [w] none true).idx + 1) ((d.getDockingPoint [w] none false).idx)
          ++ [dockingToPoint (d.getDockingPoint [w] none false)]) = _
  rw [hs, ht]
  cases hw : w.original <;>
    simp [dockingToPoint, jsSlice, anchorOf, pointOf, Option.orElse, hw, wpd]

/-- C7 amended witness: the amended theorem at a concrete engine. -/
theorem crop_invalid_input_no_validation_witness :
    exDocking.getShapePath none = none
    ∧ exDocking.getCroppedWaypoints (.wps [exW3]) none none
        = [{ x := exW3.x, y := exW3.y, original := some (anchorOf exW3) },
           { x := exW3.x, y := exW3.y, original := some (anchorOf exW3) }] :=
  ⟨by decide, crop_invalid_input_no_validation exDocking exW3 (by decide)⟩

theorem getIntersection_congr (d₁ d₂ : CroppingConnectionDocking) (sh : Option Shape)
    (ws : List Waypoint) (b : Bool)
    (hsp : d₁.getShapePath sh = d₂.getShapePath sh)
    (hcp : d₁.getConnectionPath ws = d₂.getConnectionPath ws)
    (hcr : ∀ sp, d₁.crossings sp (d₂.getConnectionPath ws) = d₂.crossings sp (d₂.getConnectionPath ws)) :
    d₁.getIntersection sh ws b = d₂.getIntersection sh ws b := by
  show getElementLineIntersection d₁.crossings (d₁.getShapePath sh) (d₁.getConnectionPath ws) b
      = getElementLineIntersection d₂.crossings (d₂.getShapePath sh) (d₂.getConnectionPath ws) b
  rw [hsp, hcp]
  cases hx : d₂.getShapePath sh with
  | none => rfl
  | some sp =>
    simp only [getElementLineIntersection]
    rw [hcr sp]

theorem getDockingPoint_congr (d₁ d₂ : CroppingConnectionDocking)
    (ws : List Waypoint) (sh : Option Shape) (b : Bool)
    (hsp : d₁.getShapePath sh = d₂.getShapePath sh)
    (hcp : d₁.getConnectionPath ws = d₂.getConnectionPath ws)
    (hcr : ∀ sp, d₁.crossings sp (d₂.getConnectionPath ws) = d₂.crossings sp (d₂.getConnectionPath ws)) :
    d₁.getDockingPoint ws sh b = d₂.getDockingPoint ws sh b := by
  have hi := getIntersection_congr d₁ d₂ sh ws b hsp hcp hcr
  simp only [CroppingConnectionDocking.getDockingPoint, hi]

/-- C8: purity and determinism. Both operations are mathematical functions
in the embedding (the source mutates nothing: `slice` copies before
`unshift`/`push`), and their output depends only on the waypoints and on
the geometry obtainable from the collaborators on exactly those inputs:
two engines whose collaborators agree on the consulted shape paths, the
consulted connection path and the crossings of that path give identical
descriptors and identical cropped output. -/
theorem crop_pure_congruence (d₁ d₂ : CroppingConnectionDocking)
    (cw : ConnectionOrWaypoints) (s t sh : Option Shape) (b : Bool)
    (hsp : d₁.getShapePath sh = d₂.getShapePath sh)
    (hss : d₁.getShapePath (resolvedSource cw s) = d₂.getShapePath (resolvedSource cw s))
    (hst : d₁.getShapePath (resolvedTarget cw t) = d₂.getShapePath (resolvedTarget cw t))
    (hcp : d₁.getConnectionPath (resolveWaypoints cw) = d₂.getConnectionPath (resolveWaypoints cw))
    (hcr : ∀ sp, d₁.crossings sp (d₂.getConnectionPath (resolveWaypoints cw))
            = d₂.crossings sp (d₂.getConnectionPath (resolveWaypoints cw))) :
    d₁.getDockingPoint (resolveWaypoints cw) sh b = d₂.getDockingPoint (resolveWaypoints cw) sh b
    ∧ d₁.getCroppedWaypoints cw s t = d₂.getCroppedWaypoints cw s t := by
  refine ⟨getDockingPoint_congr d₁ d₂ (resolveWaypoints cw) sh b hsp hcp hcr, ?_⟩
  rw [getCroppedWaypoints_eq, getCroppedWaypoints_eq,
      getDockingPoint_congr d₁ d₂ (resolveWaypoints cw) (resolvedSource cw s) true hss hcp hcr,
      getDockingPoint_congr d₁ d₂ (resolveWaypoints cw) (resolvedTarget cw t) false hst hcp hcr]

/-- C8 witness: two calls of one engine on unchanged geometry coincide. -/
theorem crop_pure_congruence_witness :
    exDocking.getShapePath (some (Shape.mk 1)) = exDocking.getShapePath (some (Shape.mk 1))
    ∧ exDocking.getShapePath (resolvedSource (.wps [exW1, exW2]) (some (Shape.mk 1)))
        = exDocking.getShapePath (resolvedSource (.wps [exW1, exW2]) (some (Shape.mk 1)))
    ∧ exDocking.getShapePath (resolvedTarget (.wps [exW1, exW2]) (some (Shape.mk 2)))
        = exDocking.getShapePath (resolvedTarget (.wps [exW1, exW2]) (some (Shape.mk 2)))
    ∧ exDocking.getConnectionPath (resolveWaypoints (.wps [exW1, exW2]))
        = exDocking.getConnectionPath (resolveWaypoints (.wps [exW1, exW2]))
    ∧ (∀ sp, exDocking.crossings sp (exDocking.getConnectionPath (resolveWaypoints (.wps [exW1, exW2])))
        = exDocking.crossings sp (exDocking.getConnectionPath (resolveWaypoints (.wps [exW1, exW2]))))
    ∧ (exDocking.getDockingPoint (resolveWaypoints (.wps [exW1, exW2])) (some (Shape.mk 1)) true
        = exDocking.getDockingPoint (resolveWaypoints (.wps [exW1, exW2])) (some (Shape.mk 1)) true
      ∧ exDocking.getCroppedWaypoints (.wps [exW1, exW2]) (some (Shape.mk 1)) (some (Shape.mk 2))
        = exDocking.getCroppedWaypoints (.wps [exW1, exW2]) (some (Shape.mk 1)) (some (Shape.mk 2))) :=
  ⟨rfl, rfl, rfl, rfl, fun _ => rfl,
    crop_pure_congruence exDocking exDocking (.wps [exW1, exW2]) (some (Shape.mk 1)) (some (Shape.mk 2))
      (some (Shape.mk 1)) true rfl rfl rfl rfl (fun _ => rfl)⟩

/-- C9: identity docking. `getDockingPoint` returns the raw waypoint as
both `point` and `actual` with `idx = 0` for the source end and the last
index otherwise, ignoring the shape entirely; `getCroppedWaypoints`
returns the connector's waypoint sequence unchanged. -/
theorem identity_docking_spec (ws : List Waypoint) (sh sh' : Option Shape) (b : Bool)
    (c : Connection) (s t : Option Shape) (h : 1 ≤ ws.length) :
    (ConnectionDocking.getDockingPoint ws sh b).idx = (if b then 0 else ws.length - 1)
    ∧ ws.get? (ConnectionDocking.getDockingPoint ws sh b).idx
        = some ((ConnectionDocking.getDockingPoint ws sh b).point)
    ∧ (ConnectionDocking.getDockingPoint ws sh b).actual
        = (ConnectionDocking.getDockingPoint ws sh b).point
    ∧ ConnectionDocking.getDockingPoint ws sh b = ConnectionDocking.getDockingPoint ws sh' b
    ∧ ConnectionDocking.getCroppedWaypoints (.conn c) s t = c.waypoints
    ∧ ConnectionDocking.getCroppedWaypoints (.wps ws) s t = ws := by
  refine ⟨rfl, ?_, rfl, rfl, rfl, rfl⟩
  show ws.get? (if b then 0 else ws.length - 1) = some (ws.getD (if b then 0 else ws.length - 1) wpd)
  apply get?_eq_some_getD
  cases b <;> simp <;> omega

/-- C9 witness: identity docking at a concrete two-point connector. -/
theorem identity_docking_spec_witness :
    1 ≤ ([exW1, exW2] : List Waypoint).length
    ∧ ((ConnectionDocking.getDockingPoint [exW1, exW2] (some (Shape.mk 1)) false).idx
          = (if false then 0 else ([exW1, exW2] : List Waypoint).length - 1)
        ∧ ([exW1, exW2] : List Waypoint).get? (ConnectionDocking.getDockingPoint [exW1, exW2] (some (Shape.mk 1)) false).idx
          = some ((ConnectionDocking.getDockingPoint [exW1, exW2] (some (Shape.mk 1)) false).point)
        ∧ (ConnectionDocking.getDockingPoint [exW1, exW2] (some (Shape.mk 1)) false).actual
          = (ConnectionDocking.getDockingPoint [exW1, exW2] (some (Shape.mk 1)) false).point
        ∧ ConnectionDocking.getDockingPoint [exW1, exW2] (some (Shape.mk 1)) false
          = ConnectionDocking.getDockingPoint [exW1, exW2] (some (Shape.mk 2)) false
        ∧ ConnectionDocking.getCroppedWaypoints
            (.conn { waypoints := [exW1, exW2], source := some (Shape.mk 1), target := some (Shape.mk 2) })
            none none
          = ({ waypoints := [exW1, exW2], source := some (Shape.mk 1), target := some (Shape.mk 2) } : Connection).waypoints
        ∧ ConnectionDocking.getCroppedWaypoints (.wps [exW1, exW2]) none none = [exW1, exW2]) :=
  ⟨by decide,
    identity_docking_spec [exW1, exW2] (some (Shape.mk 1)) (some (Shape.mk 2)) false
      { waypoints := [exW1, exW2], source := some (Shape.mk 1), target := some (Shape.mk 2) }
      none none (by decide)⟩

/-- C10: on a single-waypoint sequence (below the documented two-waypoint
precondition) the cropping `getCroppedWaypoints` raises no error: both
dockings select index 0 with `point` the lone waypoint, the interior
slice is empty, the result is the two docking endpoints (whose
coordinates equal the respective `actual`, which is the waypoint itself
when no intersection is found), and each endpoint carries `original`
equal to the waypoint's own `original` field when present, else the
waypoint itself. -/
theorem crop_single_waypoint (d : CroppingConnectionDocking) (cw : ConnectionOrWaypoints)
    (s t : Option Shape) (w : Waypoint) (h : resolveWaypoints cw = [w]) :
    d.getCroppedWaypoints cw s t
      = [dockingToPoint (d.getDockingPoint [w] (resolvedSource cw s) true),
         dockingToPoint (d.getDockingPoint [w] (resolvedTarget cw t) false)]
    ∧ (d.getDockingPoint [w] (resolvedSource cw s) true).idx = 0
    ∧ (d.getDockingPoint [w] (resolvedTarget cw t) false).idx = 0
    ∧ (d.getDockingPoint [w] (resolvedSource cw s) true).point = w
    ∧ (d.getDockingPoint [w] (resolvedTarget cw t) false).point = w
    ∧ pointOf (dockingToPoint (d.getDockingPoint [w] (resolvedSource cw s) true))
        = pointOf ((d.getDockingPoint [w] (resolvedSource cw s) true).actual)
    ∧ pointOf (dockingToPoint (d.getDockingPoint [w] (resolvedTarget cw t) false))
        = pointOf ((d.getDockingPoint [w] (resolvedTarget cw t) false).actual)
    ∧ (dockingToPoint (d.getDockingPoint [w] (resolvedSource cw s) true)).original
        = some (anchorOf w)
    ∧ (dockingToPoint (d.getDockingPoint [w] (resolvedTarget cw t) false)).original
        = some (anchorOf w)
    ∧ (d.getIntersection (resolvedSource cw s) [w] true = none →
        pointOf (dockingToPoint (d.getDockingPoint [w] (resolvedSource cw s) true)) = pointOf w)
    ∧ (d.getIntersection (resolvedTarget cw t) [w] false = none →
        pointOf (dockingToPoint (d.getDockingPoint [w] (resolvedTarget cw t) false)) = pointOf w) := by
  refine ⟨?_, rfl, rfl, rfl, rfl, rfl, rfl, ?_, ?_, ?_, ?_⟩
  · rw [getCroppedWaypoints_eq, h]
    rfl
  · rw [dockingToPoint_original_eq]
    rfl
  · rw [dockingToPoint_original_eq]
    rfl
  · intro hn
    rw [dockingToPoint_pointOf, getDockingPoint_eq_none d [w] (resolvedSource cw s) true hn]
    rfl
  · intro hn
    rw [dockingToPoint_pointOf, getDockingPoint_eq_none d [w] (resolvedTarget cw t) false hn]
    rfl

/-- C10 witness: the theorem at a concrete single-waypoint connector. -/
theorem crop_single_waypoint_witness :
    resolveWaypoints (.wps [exW1]) = [exW1]
    ∧ (exDocking.getCroppedWaypoints (.wps [exW1]) none none
          = [dockingToPoint (exDocking.getDockingPoint [exW1] (resolvedSource (.wps [exW1]) none) true),
             dockingToPoint (exDocking.getDockingPoint [exW1] (resolvedTarget (.wps [exW1]) none) false)]
        ∧ (exDocking.getDockingPoint [exW1] (resolvedSource (.wps [exW1]) none) true).idx = 0
        ∧ (exDocking.getDockingPoint [exW1] (resolvedTarget (.wps [exW1]) none) false).idx = 0
        ∧ (exDocking.getDockingPoint [exW1] (resolvedSource (.wps [exW1]) none) true).point = exW1
        ∧ (exDocking.getDockingPoint [exW1] (resolvedTarget (.wps [exW1]) none) false).point = exW1
        ∧ pointOf (dockingToPoint (exDocking.getDockingPoint [exW1] (resolvedSource (.wps [exW1]) none) true))
            = pointOf ((exDocking.getDockingPoint [exW1] (resolvedSource (.wps [exW1]) none) true).actual)
        ∧ pointOf (dockingToPoint (exDocking.getDockingPoint [exW1] (resolvedTarget (.wps [exW1]) none) false))
            = pointOf ((exDocking.getDockingPoint [exW1] (resolvedTarget (.wps [exW1]) none) false).actual)
        ∧ (dockingToPoint (exDocking.getDockingPoint [exW1] (resolvedSource (.wps [exW1]) none) true)).original
            = some (anchorOf exW1)
        ∧ (dockingToPoint (exDocking.getDockingPoint [exW1] (resolvedTarget (.wps [exW1]) none) false)).original
            = some (anchorOf exW1)
        ∧ (exDocking.getIntersection (resolvedSource (.wps [exW1]) none) [exW1] true = none →
            pointOf (dockingToPoint (exDocking.getDockingPoint [exW1] (resolvedSource (.wps [exW1]) none) true)) = pointOf exW1)
        ∧ (exDocking.getIntersection (resolvedTarget (.wps [exW1]) none) [exW1] false = none →
            pointOf (dockingToPoint (exDocking.getDockingPoint [exW1] (resolvedTarget (.wps [exW1]) none) false)) = pointOf exW1)) :=
  ⟨by decide, crop_single_waypoint exDocking (.wps [exW1]) none none exW1 (by decide)⟩
